import Mathlib

/-!
Verification development for a reactive-stream library core
(retryWhen operator, every operator, ArgumentOutOfRangeError, and the
Consumer-Guard terminal protocol), shallowly embedded from the TypeScript
source.  Notifications, delivered effects and subscriber state are made
explicit; user callbacks that may throw are modelled as `Except`-valued
functions.
-/

/-- A downstream notification: a value, an error, or completion.
`α` is the value type, `ε` the error type. -/
inductive Notification (α ε : Type) where
  | next (v : α)
  | error (e : ε)
  | complete
deriving DecidableEq, Repr

/-- A terminal notification is `error` or `complete`. -/
def Notification.isTerminal {α ε : Type} : Notification α ε → Bool
  | .next _ => false
  | .error _ => true
  | .complete => true

/-! ## The `every` operator (src/unnamed/part_001, `EverySubscriber`)

Per-subscription state of `EverySubscriber`: the running `index`, plus the
stopped/closed flag of the subscriber chain.  The `stopped` flag itself
belongs to the `Subscriber` base class, which is not under `src/`; its
behaviour (a stopped subscriber discards all further calls, and a terminal
notification stops the chain and closes the upstream subscription) is
modelled from the spec, §4.2 and invariant 1 of §3. -/
structure EveryState where
  index : Nat
  stopped : Bool
deriving DecidableEq, Repr

/-- The initial state of a freshly subscribed `EverySubscriber`:
`index = 0`, not stopped. -/
def EveryState.init : EveryState := ⟨0, false⟩

/-- `EverySubscriber._next` (src/unnamed/part_001 lines 68–80).  The
user-supplied predicate receives the value and the post-incremented index
counter (`this.index++` is evaluated before the call, so the index is
advanced even when the predicate throws); a thrown exception is modelled by
`.error`.  If the predicate throws, the error is delivered to the
destination and nothing else happens; if it returns `false`,
`notifyComplete(false)` delivers `next false` then `complete` downstream.
A terminal delivery stops the subscriber chain (spec §4.2, modelled). -/
def EverySubscriber.onNext {α ε : Type} (pred : α → Nat → Except ε Bool)
    (st : EveryState) (v : α) : EveryState × List (Notification Bool ε) :=
  if st.stopped then (st, [])
  else
    match pred v st.index with
    | .error err => ({ index := st.index + 1, stopped := true }, [.error err])
    | .ok result =>
      if !result then
        ({ index := st.index + 1, stopped := true },
         [.next false, .complete])
      else
        ({ index := st.index + 1, stopped := false }, [])

/-- `EverySubscriber._complete` (src/unnamed/part_001 lines 82–84):
`notifyComplete(true)` delivers `next true` then `complete` downstream. -/
def EverySubscriber.onComplete {ε : Type} (st : EveryState) :
    EveryState × List (Notification Bool ε) :=
  if st.stopped then (st, [])
  else ({ st with stopped := true }, [.next true, .complete])

/-- Modelled from the spec: a cold synchronous array source (`of(...)`;
the `Observable`/`Subscriber` plumbing is not under `src/`).  It pushes its
values in order to the `EverySubscriber`, but stops pushing as soon as the
subscriber chain is stopped — delivering a terminal notification closes the
owned Disposal Node and cancels the upstream subscription (spec §4.2,
§3 invariant 1).  After the last value, if the subscriber is still live, the
source completes it.  Returns the per-element downstream output lists (one
entry per source element actually processed by the subscriber) together
with the output produced at source completion. -/
def runEveryTrace {α ε : Type} (pred : α → Nat → Except ε Bool) :
    EveryState → List α →
    List (List (Notification Bool ε)) × List (Notification Bool ε)
  | st, [] =>
      if st.stopped then ([], [])
      else ([], (EverySubscriber.onComplete st).2)
  | st, v :: vs =>
      if st.stopped then ([], [])
      else
        let (st1, out) := EverySubscriber.onNext pred st v
        let (tr, fin) := runEveryTrace pred st1 vs
        (out :: tr, fin)

/-! ## The `retryWhen` operator (src/src/internal/operators/retryWhen.ts)

State of a `RetryWhenSubscriber`.  The notifier-input channel (`errors`
Subject), the notifier Stream (`retries`) and its subscription
(`retriesSubscription`) are identified by numeric ids so that "the same
channel is reused" is expressible; `nextId` is the fresh-id supply.
`unsubHook` records whether the custom `_unsubscribe` hook is installed
(`notifyNext` temporarily removes it).  `isStopped` is the Subscriber base
flag checked at the top of `error`. -/
structure RetryState where
  isStopped : Bool
  errors : Option Nat
  retries : Option Nat
  retriesSubscription : Option Nat
  unsubHook : Bool
  nextId : Nat
deriving DecidableEq, Repr

/-- State of a freshly constructed `RetryWhenSubscriber`: all three
notifier fields are `null`, the `_unsubscribe` hook is installed, the
subscriber is not stopped. -/
def RetryState.init : RetryState :=
  { isStopped := false, errors := none, retries := none,
    retriesSubscription := none, unsubHook := true, nextId := 0 }

/-- Observable actions performed by the `RetryWhenSubscriber` methods, in
order: creating the `errors` Subject, invoking the user notifier function
with it, subscribing the obtained notifier Stream (`subscribeToResult`),
tearing down / recycling the current source subscription
(`_unsubscribeAndRecycle`), unsubscribing the channel or the notifier
subscription (inside `_unsubscribe`), pushing an error into the channel
(`errors.next(err)`), resubscribing the source (`source.subscribe(this)`),
and downstream terminal deliveries. -/
inductive RetryEffect (ε : Type) where
  | createSubject (chan : Nat)
  | callNotifier (chan : Nat)
  | subscribeNotifier (stream : Nat) (sub : Nat)
  | teardownSource
  | unsubscribeChannel (chan : Nat)
  | unsubscribeNotifierSub (sub : Nat)
  | pushError (chan : Nat) (e : ε)
  | resubscribeSource
  | downstreamError (e : ε)
  | downstreamComplete
  | crash
deriving DecidableEq, Repr

/-- Is the effect a downstream notification (visible to the consumer)? -/
def RetryEffect.isDownstream {ε : Type} : RetryEffect ε → Bool
  | .downstreamError _ => true
  | .downstreamComplete => true
  | _ => false

/-- Does the effect tear down part of the notifier machinery (the `errors`
channel or the notifier subscription)? -/
def RetryEffect.isNotifierTeardown {ε : Type} : RetryEffect ε → Bool
  | .unsubscribeChannel _ => true
  | .unsubscribeNotifierSub _ => true
  | _ => false

/-- `RetryWhenSubscriber._unsubscribe` (retryWhen.ts lines 127–139): if the
`errors` Subject exists it is unsubscribed and nulled; if the notifier
subscription exists it is unsubscribed and nulled; `retries` is nulled
unconditionally. -/
def RetryWhen.unsubscribeHook {ε : Type} (st : RetryState) :
    RetryState × List (RetryEffect ε) :=
  let e1 := match st.errors with
    | some c => [RetryEffect.unsubscribeChannel c]
    | none => []
  let e2 := match st.retriesSubscription with
    | some s => [RetryEffect.unsubscribeNotifierSub s]
    | none => []
  ({ st with errors := none, retriesSubscription := none, retries := none },
   e1 ++ e2)

/-- `Subscriber._unsubscribeAndRecycle` as invoked by `RetryWhenSubscriber`
(the base class is not under `src/`; modelled from the spec §4.6: tear down
— "but do not fully destroy" — the current source subscription, leaving the
subscriber reusable).  Teardown runs the installed `_unsubscribe` hook, if
any, and releases the current source attempt (`teardownSource`); afterwards
the subscriber is re-opened (`isStopped = false`). -/
def RetryWhen.unsubscribeAndRecycle {ε : Type} (st : RetryState) :
    RetryState × List (RetryEffect ε) :=
  if st.unsubHook then
    let (st1, effs) := @RetryWhen.unsubscribeHook ε st
    ({ st1 with isStopped := false }, RetryEffect.teardownSource :: effs)
  else
    ({ st with isStopped := false }, [RetryEffect.teardownSource])

/-- `RetryWhenSubscriber.error` (retryWhen.ts lines 96–125).  The user
notifier function is `notifier` (given the channel id, it returns the id of
the obtained notifier Stream, or throws, modelled by `.error`).  Faithful to
the source: nothing happens when stopped; on the first failure (`!retries`)
a fresh Subject is created, the notifier is invoked (a throw becomes
`super.error(e)`: stop and forward downstream) and its result subscribed
via `subscribeToResult`; on later failures the `errors` and
`retriesSubscription` fields are stashed in locals and nulled so that
`_unsubscribeAndRecycle` does not release them, then restored.  Finally the
incoming error is pushed into the channel (`errors!.next(err)`; the
non-null assertion on a null channel is the `crash` effect). -/
def RetryWhen.error {ε : Type} (notifier : Nat → Except ε Nat)
    (st : RetryState) (err : ε) : RetryState × List (RetryEffect ε) :=
  if st.isStopped then (st, [])
  else
    match st.retries with
    | none =>
      let chanId := st.nextId
      match notifier chanId with
      | .error e =>
          ({ st with isStopped := true },
           [.createSubject chanId, .callNotifier chanId, .downstreamError e])
      | .ok retId =>
          let subId := st.nextId + 1
          let (st1, effs1) := @RetryWhen.unsubscribeAndRecycle ε st
          ({ st1 with errors := some chanId, retries := some retId,
                      retriesSubscription := some subId,
                      nextId := st.nextId + 2 },
           [.createSubject chanId, .callNotifier chanId,
            .subscribeNotifier retId subId]
             ++ effs1 ++ [.pushError chanId err])
    | some _ =>
      let errs := st.errors
      let rsub := st.retriesSubscription
      let (st1, effs1) := @RetryWhen.unsubscribeAndRecycle ε
        { st with errors := none, retriesSubscription := none }
      let st2 := { st1 with errors := errs, retries := st.retries,
                            retriesSubscription := rsub }
      match errs with
      | some c => (st2, effs1 ++ [.pushError c err])
      | none => (st2, effs1 ++ [.crash])

/-- `RetryWhenSubscriber.notifyNext` (retryWhen.ts lines 141–151): the
`_unsubscribe` hook is stashed and removed, the source subscription is torn
down and recycled, the hook is restored, and the source is resubscribed
directly with the same subscriber (`this.source.subscribe(this)`). -/
def RetryWhen.notifyNext {ε : Type} (st : RetryState) :
    RetryState × List (RetryEffect ε) :=
  let (st1, effs) :=
    @RetryWhen.unsubscribeAndRecycle ε { st with unsubHook := false }
  let st2 := { st1 with unsubHook := st.unsubHook }
  (st2, effs ++ [RetryEffect.resubscribeSource])

/-- Modelled from the spec: `OuterSubscriber.notifyError` (the class is not
under `src/`; `RetryWhenSubscriber` inherits it unchanged).  Per §4.6, on
notifier failure the error is forwarded downstream as-is and the manager
transitions to `TERMINATED` (the downstream terminal tears down the
subscriber chain, stopping it). -/
def RetryWhen.notifyError {ε : Type} (st : RetryState) (e : ε) :
    RetryState × List (RetryEffect ε) :=
  ({ st with isStopped := true }, [RetryEffect.downstreamError e])

/-- Modelled from the spec: `OuterSubscriber.notifyComplete` (the class is
not under `src/`; `RetryWhenSubscriber` inherits it unchanged).  Per §4.6,
on notifier completion the completion is forwarded downstream and the
manager transitions to `TERMINATED`. -/
def RetryWhen.notifyComplete {ε : Type} (st : RetryState) :
    RetryState × List (RetryEffect ε) :=
  ({ st with isStopped := true }, [RetryEffect.downstreamComplete])

/-- The identity-style notifier used for the synchronous-recursion
analysis: it returns a notifier Stream that re-emits every pushed error
synchronously (stream id = channel id). -/
def retryIdNotifier : Nat → Except Unit Nat := fun c => Except.ok c

/-- Synchronous execution of the retry loop for a source that fails
immediately `n` more times and then completes, with `retryIdNotifier`
re-emitting each pushed error synchronously.  Each cycle runs entirely on
one call stack: `subscribe` → `error` → `errors.next` → `notifyNext` →
`this.source.subscribe(this)` (retryWhen.ts line 150 — a direct call, not a
scheduled/trampolined one), so the nested resubscription occupies a new,
deeper stack frame.  `depth` is the current stack depth of the subscription
path; the function returns the maximal depth reached. -/
def runSyncRetry : Nat → RetryState → Nat → Nat
  | 0, _, depth => depth
  | n + 1, st, depth =>
      let (st1, effs1) := RetryWhen.error retryIdNotifier st ()
      if effs1.any (fun e => match e with | .pushError _ _ => true | _ => false) then
        let (st2, _) := @RetryWhen.notifyNext Unit st1
        runSyncRetry n st2 (depth + 1)
      else depth

/-! ## The Consumer Guard terminal protocol

Modelled from the spec: the `Subscriber` base class enforcing the
terminal-delivery protocol is not under `src/`.  Per §4.2 and §3
invariant 1: before stopped, `value` forwards to the destination;
`fail`/`complete` mark the guard stopped and forward once; after stopped
all three are no-ops. -/
structure Guard (α ε : Type) where
  stopped : Bool
  out : List (Notification α ε)
deriving DecidableEq, Repr

/-- A call made on a Consumer Guard. -/
inductive GCall (α ε : Type) where
  | value (v : α)
  | fail (e : ε)
  | complete
deriving DecidableEq, Repr

/-- Modelled from the spec (§4.2): `value` forwards the value when the
guard is not stopped, and is a no-op otherwise. -/
def Guard.value {α ε : Type} (g : Guard α ε) (v : α) : Guard α ε :=
  if g.stopped then g else { g with out := g.out ++ [.next v] }

/-- Modelled from the spec (§4.2): `fail` marks the guard stopped and
forwards the error once; a no-op when already stopped. -/
def Guard.fail {α ε : Type} (g : Guard α ε) (e : ε) : Guard α ε :=
  if g.stopped then g else { stopped := true, out := g.out ++ [.error e] }

/-- Modelled from the spec (§4.2): `complete` marks the guard stopped and
forwards the completion once; a no-op when already stopped. -/
def Guard.complete {α ε : Type} (g : Guard α ε) : Guard α ε :=
  if g.stopped then g else { stopped := true, out := g.out ++ [.complete] }

/-- Dispatch one call on a guard. -/
def Guard.step {α ε : Type} (g : Guard α ε) : GCall α ε → Guard α ε
  | .value v => g.value v
  | .fail e => g.fail e
  | .complete => g.complete

/-- Run a whole sequence of calls on a guard, in order. -/
def Guard.run {α ε : Type} (g : Guard α ε) (calls : List (GCall α ε)) :
    Guard α ε :=
  calls.foldl Guard.step g

/-- A fresh Consumer Guard: not stopped, nothing delivered. -/
def Guard.init {α ε : Type} : Guard α ε := ⟨false, []⟩

/-! ## The distinguished query error (src/unnamed/part_000)

`ArgumentOutOfRangeError` instances in the source are `Error` objects; the
observable payload of an `Error` is its `name` and `message`. -/
structure JSError where
  name : String
  message : String
deriving DecidableEq, Repr

/-- `ArgumentOutOfRangeErrorImpl` (src/unnamed/part_000 lines 8–19): the
constructor takes no arguments and sets the two fields to fixed string
constants (the literals in this source carry a spurious `.ts` suffix from
the repository's import rewriting; they are nonetheless fixed constants). -/
def ArgumentOutOfRangeErrorImpl : JSError :=
  { name := "ArgumentOutOfRangeError.ts", message := "argument out of range.ts" }

/-! ## Theorems for the `every` operator test cases -/

/-- Claim C5: running `every` with predicate `value < 5` over the source
`1,2,3,4,5,6`: the downstream receives exactly one value `false` followed by
a single completion (all produced while processing the fifth element), the
source never completes the subscriber, and only five elements are processed
— the upstream is cancelled at the first failing element, so `6` is never
seen by the subscriber. -/
theorem every_short_circuit :
    runEveryTrace (fun v _i => (Except.ok (decide (v < 5)) : Except String Bool))
        EveryState.init [1, 2, 3, 4, 5, 6] =
      ([[], [], [], [], [Notification.next false, Notification.complete]], []) ∧
    (runEveryTrace (fun v _i => (Except.ok (decide (v < 5)) : Except String Bool))
        EveryState.init [1, 2, 3, 4, 5, 6]).1.length = 5 := by
  constructor <;> decide

/-- Claim C9: running `every` with predicate `value < 10` over the source
`1,2,3`: no output is emitted while any source element is being processed
(every per-element output list is empty); only when the source itself
completes does the downstream receive the single value `true` followed by
completion. -/
theorem every_all_pass :
    runEveryTrace (fun v _i => (Except.ok (decide (v < 10)) : Except String Bool))
        EveryState.init [1, 2, 3] =
      ([[], [], []], [Notification.next true, Notification.complete]) := by
  decide

/-! ## Theorems for the retry manager -/

/-- Claim C1: in the ATTEMPT state (not stopped), every source failure
pushes the error into the notifier-input channel.  If no notifier exists
yet, a fresh Subject is created, the user notifier function is invoked with
it, its result is subscribed, and the error is pushed into the new channel;
if the notifier machinery exists from a prior cycle, the very same channel
and subscription are kept in the state and the new error is pushed into the
same channel. -/
theorem retryWhen_error_pushes_and_subscribes {ε : Type}
    (notifier : Nat → Except ε Nat) (st : RetryState) (err : ε)
    (hstop : st.isStopped = false) :
    (∀ s, st.retries = none → st.errors = none →
      st.retriesSubscription = none → notifier st.nextId = Except.ok s →
      RetryWhen.error notifier st err =
        ({ st with errors := some st.nextId, retries := some s,
                   retriesSubscription := some (st.nextId + 1),
                   nextId := st.nextId + 2, isStopped := false },
         [.createSubject st.nextId, .callNotifier st.nextId,
          .subscribeNotifier s (st.nextId + 1), .teardownSource,
          .pushError st.nextId err])) ∧
    (∀ c r s, st.errors = some c → st.retries = some r →
      st.retriesSubscription = some s →
      RetryWhen.error notifier st err =
        ({ st with isStopped := false },
         [.teardownSource, .pushError c err])) := by
  obtain ⟨stop, errs, rets, rsub, hook, nid⟩ := st
  simp only at hstop
  subst hstop
  constructor
  · intro s h1 h2 h3 h4
    simp only at h1 h2 h3
    subst h1; subst h2; subst h3
    cases hook <;>
      simp [RetryWhen.error, RetryWhen.unsubscribeAndRecycle,
            RetryWhen.unsubscribeHook, h4]
  · intro c r s h1 h2 h3
    simp only at h1 h2 h3
    subst h1; subst h2; subst h3
    cases hook <;>
      simp [RetryWhen.error, RetryWhen.unsubscribeAndRecycle,
            RetryWhen.unsubscribeHook]

/-- Witness for C1: both branches at concrete inputs — a first failure from
the fresh state, and a second failure from the state left by the first
cycle, which pushes into the same channel `0` through the same
subscription `1`. -/
theorem retryWhen_error_pushes_and_subscribes_witness :
    (RetryWhen.error (fun c => Except.ok (c + 10)) RetryState.init (0 : Nat) =
      ({ isStopped := false, errors := some 0, retries := some 10,
         retriesSubscription := some 1, unsubHook := true, nextId := 2 },
       [.createSubject 0, .callNotifier 0, .subscribeNotifier 10 1,
        .teardownSource, .pushError 0 0])) ∧
    (RetryWhen.error (fun c => Except.ok (c + 10))
        { isStopped := false, errors := some 0, retries := some 10,
          retriesSubscription := some 1, unsubHook := true, nextId := 2 }
        (5 : Nat) =
      ({ isStopped := false, errors := some 0, retries := some 10,
         retriesSubscription := some 1, unsubHook := true, nextId := 2 },
       [.teardownSource, .pushError 0 5])) := by
  constructor
  · exact (retryWhen_error_pushes_and_subscribes
      (fun c => Except.ok (c + 10)) RetryState.init 0 rfl).1 10 rfl rfl rfl rfl
  · exact (retryWhen_error_pushes_and_subscribes
      (fun c => Except.ok (c + 10))
      { isStopped := false, errors := some 0, retries := some 10,
        retriesSubscription := some 1, unsubHook := true, nextId := 2 }
      5 rfl).2 0 10 1 rfl rfl rfl

/-- Claim C2: `notifyNext` — on any value from the notifier Stream — tears
down the current source subscription (`teardownSource`) without destroying
the subscriber (the resulting state is re-opened, `isStopped = false`, and
all fields are kept), then resubscribes the source from scratch with the
same subscriber (`resubscribeSource`), i.e. the manager is back in the
ATTEMPT state. -/
theorem retryWhen_notifyNext_resubscribes {ε : Type} (st : RetryState) :
    @RetryWhen.notifyNext ε st =
      ({ st with isStopped := false },
       [RetryEffect.teardownSource, RetryEffect.resubscribeSource]) := by
  simp [RetryWhen.notifyNext, RetryWhen.unsubscribeAndRecycle]

/-- Claim C10: the teardown performed inside `notifyNext` preserves the
notifier machinery — the `errors` channel, the notifier Stream and its
subscription are unchanged (hence still non-null if they were), the
`_unsubscribe` hook is restored, and no effect unsubscribes the channel or
the notifier subscription.  Only the genuine `_unsubscribe` hook releases
them, nulling all three. -/
theorem retryWhen_notifyNext_preserves_notifier_machinery {ε : Type}
    (st : RetryState) :
    ((@RetryWhen.notifyNext ε st).1.errors = st.errors ∧
     (@RetryWhen.notifyNext ε st).1.retries = st.retries ∧
     (@RetryWhen.notifyNext ε st).1.retriesSubscription =
       st.retriesSubscription ∧
     (@RetryWhen.notifyNext ε st).1.unsubHook = st.unsubHook) ∧
    ((@RetryWhen.notifyNext ε st).2.all
      fun e => !e.isNotifierTeardown) ∧
    ((@RetryWhen.unsubscribeHook ε st).1.errors = none ∧
     (@RetryWhen.unsubscribeHook ε st).1.retries = none ∧
     (@RetryWhen.unsubscribeHook ε st).1.retriesSubscription = none) := by
  refine ⟨?_, ?_, ?_⟩ <;>
    simp [RetryWhen.notifyNext, RetryWhen.unsubscribeAndRecycle,
          RetryWhen.unsubscribeHook, RetryEffect.isNotifierTeardown]

/-- Claim C4: a terminal event of the notifier Stream is forwarded
downstream exactly as-is — `notifyError` delivers precisely the incoming
error, `notifyComplete` precisely a completion — the manager is stopped
(TERMINATED), neither path emits a resubscription, and any further source
failure reaching the stopped manager is a no-op. -/
theorem retryWhen_notifier_terminal_forwarded {ε : Type}
    (st : RetryState) (e : ε) :
    (RetryWhen.notifyError st e =
      ({ st with isStopped := true }, [RetryEffect.downstreamError e])) ∧
    (@RetryWhen.notifyComplete ε st =
      ({ st with isStopped := true }, [RetryEffect.downstreamComplete])) ∧
    RetryEffect.resubscribeSource ∉ (RetryWhen.notifyError st e).2 ∧
    RetryEffect.resubscribeSource ∉ (@RetryWhen.notifyComplete ε st).2 ∧
    (∀ (notifier : Nat → Except ε Nat) (err : ε),
      RetryWhen.error notifier (RetryWhen.notifyError st e).1 err =
      ((RetryWhen.notifyError st e).1, [])) ∧
    (∀ (notifier : Nat → Except ε Nat) (err : ε),
      RetryWhen.error notifier (@RetryWhen.notifyComplete ε st).1 err =
      ((@RetryWhen.notifyComplete ε st).1, [])) := by
  refine ⟨rfl, rfl, by simp [RetryWhen.notifyError], by simp [RetryWhen.notifyComplete],
    ?_, ?_⟩ <;>
    intro notifier err <;>
    simp [RetryWhen.error, RetryWhen.notifyError, RetryWhen.notifyComplete]

/-- Helper: once the notifier machinery exists, every further synchronous
failure/re-emission cycle leaves the retry state unchanged and nests
exactly one more stack frame on the resubscription path. -/
theorem runSyncRetry_stable_depth (n : Nat) (c r s nid : Nat) :
    ∀ d, runSyncRetry n
      { isStopped := false, errors := some c, retries := some r,
        retriesSubscription := some s, unsubHook := true, nextId := nid } d
      = d + n := by
  induction n with
  | zero => intro d; rfl
  | succ m ih =>
      intro d
      show runSyncRetry m
        { isStopped := false, errors := some c, retries := some r,
          retriesSubscription := some s, unsubHook := true, nextId := nid }
        (d + 1) = d + (m + 1)
      rw [ih (d + 1)]
      omega

/-- Helper: starting from the fresh retry subscriber, `n` consecutive
synchronous failure/re-emission cycles drive the resubscription path to
stack depth `n + 1`. -/
theorem runSyncRetry_init_depth (n : Nat) :
    runSyncRetry n RetryState.init 1 = n + 1 := by
  cases n with
  | zero => rfl
  | succ m =>
      have h := runSyncRetry_stable_depth m 0 0 1 2 2
      show runSyncRetry m
        { isStopped := false, errors := some 0, retries := some 0,
          retriesSubscription := some 1, unsubHook := true, nextId := 2 }
        2 = m + 1 + 1
      rw [h]
      omega

/-- Claim C3 as stated is false on this code: `notifyNext` resubscribes the
source with the direct call `this.source.subscribe(this)` (retryWhen.ts
line 150), not through a queued/trampolined execution context, so no
constant bounds the recursion depth of the resubscription path over all
numbers `n` of consecutive synchronous retry cycles. -/
theorem retry_resubscription_depth_unbounded :
    ¬ ∃ C : Nat, ∀ n : Nat, runSyncRetry n RetryState.init 1 ≤ C := by
  rintro ⟨C, h⟩
  have h2 := h (C + 1)
  rw [runSyncRetry_init_depth] at h2
  omega

/-- Claim C3 amended: re-subscription happens by a direct synchronous call
in `notifyNext`, so `n` consecutive synchronous retry cycles nest the
resubscription path exactly `n + 1` stack frames deep — the depth grows
linearly with `n` rather than being bounded by a constant. -/
theorem retry_resubscription_depth_linear (n : Nat) :
    runSyncRetry n RetryState.init 1 = n + 1 :=
  runSyncRetry_init_depth n

/-- Claim C6: an error thrown by a user callback during delivery is caught
at the guard boundary and becomes a single downstream fail with nothing
delivered afterwards: (a) if the `every` predicate throws, `_next` delivers
exactly that error downstream and the rest of the source input produces no
further output; (b) if the `retryWhen` notifier function throws, the only
downstream effect of the error path is that single failure and the manager
is stopped. -/
theorem callback_throw_becomes_single_fail {α ε : Type}
    (pred : α → Nat → Except ε Bool) (st : EveryState) (v : α) (er : ε)
    (vs : List α) (notifier : Nat → Except ε Nat) (rst : RetryState)
    (err e2 : ε)
    (hstop : st.stopped = false) (hthrow : pred v st.index = Except.error er)
    (hrs : rst.isStopped = false) (hrr : rst.retries = none)
    (hnt : notifier rst.nextId = Except.error e2) :
    (EverySubscriber.onNext pred st v =
      ({ index := st.index + 1, stopped := true }, [Notification.error er]) ∧
     runEveryTrace pred { index := st.index + 1, stopped := true } vs =
       ([], [])) ∧
    ((RetryWhen.error notifier rst err).2.filter RetryEffect.isDownstream =
       [RetryEffect.downstreamError e2] ∧
     (RetryWhen.error notifier rst err).1.isStopped = true) := by
  refine ⟨⟨?_, ?_⟩, ?_, ?_⟩
  · simp [EverySubscriber.onNext, hstop, hthrow]
  · cases vs <;> simp [runEveryTrace]
  · obtain ⟨stop, errsf, rets, rsub, hook, nid⟩ := rst
    simp only at hrs hrr
    subst hrs; subst hrr
    simp [RetryWhen.error, hnt, RetryEffect.isDownstream]
  · obtain ⟨stop, errsf, rets, rsub, hook, nid⟩ := rst
    simp only at hrs hrr
    subst hrs; subst hrr
    simp [RetryWhen.error, hnt]

/-- Witness for C6 at concrete inputs: an `every` predicate that throws
`42` at the first value, and a retry notifier function that throws `7`. -/
theorem callback_throw_becomes_single_fail_witness :
    (EverySubscriber.onNext
        (fun (_ : Nat) _ => (Except.error 42 : Except Nat Bool))
        EveryState.init 0 =
      ({ index := 1, stopped := true }, [Notification.error 42]) ∧
     runEveryTrace (fun (_ : Nat) _ => (Except.error 42 : Except Nat Bool))
        { index := 1, stopped := true } [1, 2] = ([], [])) ∧
    ((RetryWhen.error (fun _ => Except.error 7) RetryState.init
        (0 : Nat)).2.filter RetryEffect.isDownstream =
       [RetryEffect.downstreamError 7] ∧
     (RetryWhen.error (fun _ => Except.error 7) RetryState.init
        (0 : Nat)).1.isStopped = true) :=
  callback_throw_becomes_single_fail
    (fun (_ : Nat) _ => (Except.error 42 : Except Nat Bool))
    EveryState.init 0 42 [1, 2] (fun _ => Except.error 7) RetryState.init
    0 7 rfl rfl rfl rfl rfl

/-- Helper: one guard call preserves the terminal-count invariant (a live
guard has delivered no terminal; any guard has delivered at most one). -/
theorem Guard.step_terminal_invariant {α ε : Type} (g : Guard α ε)
    (c : GCall α ε)
    (h : (g.stopped = false →
            (g.out.filter Notification.isTerminal).length = 0) ∧
         (g.out.filter Notification.isTerminal).length ≤ 1) :
    ((g.step c).stopped = false →
      ((g.step c).out.filter Notification.isTerminal).length = 0) ∧
    ((g.step c).out.filter Notification.isTerminal).length ≤ 1 := by
  obtain ⟨g0, gout⟩ := g
  obtain ⟨h1, h2⟩ := h
  cases c <;> cases g0 <;>
    simp_all [Guard.step, Guard.value, Guard.fail, Guard.complete,
              Notification.isTerminal]

/-- Helper: running any call sequence from a guard satisfying the
terminal-count invariant delivers at most one terminal in total. -/
theorem Guard.run_terminal_invariant {α ε : Type} (calls : List (GCall α ε)) :
    ∀ g : Guard α ε,
      ((g.stopped = false →
          (g.out.filter Notification.isTerminal).length = 0) ∧
       (g.out.filter Notification.isTerminal).length ≤ 1) →
      (((g.run calls).out.filter Notification.isTerminal).length ≤ 1) := by
  induction calls with
  | nil => intro g h; exact h.2
  | cons c cs ih =>
      intro g h
      exact ih (g.step c) (Guard.step_terminal_invariant g c h)

/-- Claim C7: a Consumer Guard delivers at most one terminal notification —
from a fresh guard, any call sequence leaves at most one terminal in the
delivered output; a guard that has delivered `fail` or `complete` is
stopped, and every further `value`/`fail`/`complete` on it is a no-op
returning it unchanged; and the retry manager's `error` does nothing on a
stopped subscriber. -/
theorem guard_at_most_one_terminal {α ε : Type} (calls : List (GCall α ε))
    (g : Guard α ε) (v : α) (e e2 : ε) (rst : RetryState)
    (notifier : Nat → Except ε Nat) (err : ε) :
    ((((@Guard.init α ε).run calls).out.filter
        Notification.isTerminal).length ≤ 1) ∧
    ((g.fail e).stopped = true ∧ g.complete.stopped = true) ∧
    ((g.fail e).value v = g.fail e ∧ (g.fail e).fail e2 = g.fail e ∧
     (g.fail e).complete = g.fail e) ∧
    (g.complete.value v = g.complete ∧ g.complete.fail e2 = g.complete ∧
     g.complete.complete = g.complete) ∧
    RetryWhen.error notifier { rst with isStopped := true } err =
      ({ rst with isStopped := true }, []) := by
  refine ⟨Guard.run_terminal_invariant calls Guard.init
      ⟨fun _ => rfl, by simp [Guard.init]⟩, ?_, ?_, ?_, ?_⟩
  · obtain ⟨g0, gout⟩ := g
    cases g0 <;> simp [Guard.fail, Guard.complete]
  · obtain ⟨g0, gout⟩ := g
    cases g0 <;> simp [Guard.fail, Guard.value, Guard.complete]
  · obtain ⟨g0, gout⟩ := g
    cases g0 <;> simp [Guard.fail, Guard.value, Guard.complete]
  · simp [RetryWhen.error]

/-- Claim C8: the distinguished query error is constructed with no
arguments; its `name` and `message` are fixed string constants identifying
the "queried sequence position does not exist" condition (the literals in
this source carry a spurious `.ts` suffix), and any error object whose
`name` differs — every ordinary user error — is distinguishable from it. -/
theorem argumentOutOfRangeError_fixed_identity :
    ArgumentOutOfRangeErrorImpl.name = "ArgumentOutOfRangeError.ts" ∧
    ArgumentOutOfRangeErrorImpl.message = "argument out of range.ts" ∧
    (∀ e : JSError, e.name ≠ ArgumentOutOfRangeErrorImpl.name →
      e ≠ ArgumentOutOfRangeErrorImpl) := by
  refine ⟨rfl, rfl, ?_⟩
  intro e h he
  exact h (by rw [he])

/-- Witness for C8: an ordinary user error with a different `name` is not
the distinguished query error. -/
theorem argumentOutOfRangeError_fixed_identity_witness :
    ({ name := "TypeError", message := "boom" } : JSError) ≠
      ArgumentOutOfRangeErrorImpl :=
  argumentOutOfRangeError_fixed_identity.2.2
    { name := "TypeError", message := "boom" } (by decide)
